import Mathlib

/-!
Shallow embedding of `src/automate_presentation.py`, a linear
ETL-and-report script: load a CSV, drop incomplete rows, derive three
columns, render charts to image files, and assemble a slide deck in two
styling variants.  Pandas/pptx machine state is modelled explicitly:
a dataframe is a list of rows, missing values are `Option`, a raised
exception or a `sys.exit` is a constructor of a result type.
-/

namespace AutoPres

/-- A raw CSV row with the columns the script touches
(`type, duration, listed_in, date_added, country, rating, release_year`,
the schema the input file is assumed to have).  A missing value (NaN) is
`none`. -/
structure Row where
  type : Option String
  duration : Option String
  listed_in : Option String
  date_added : Option String
  country : Option String
  rating : Option String
  release_year : Option String
deriving DecidableEq, Repr

/-- `df.dropna()` keeps a row iff every column holds a value. -/
def rowComplete (r : Row) : Bool :=
  r.type.isSome && r.duration.isSome && r.listed_in.isSome &&
  r.date_added.isSome && r.country.isSome && r.rating.isSome &&
  r.release_year.isSome

/-- First maximal run of digit characters, if any: the semantics of the
regex search in `.str.extract('(\d+)')` (leftmost match of `\d+`,
greedy). -/
def firstDigitRun : List Char → Option (List Char)
  | [] => none
  | c :: cs =>
    if c.isDigit then some (c :: cs.takeWhile Char.isDigit)
    else firstDigitRun cs

/-- Decimal value of a digit string. -/
def digitsToNat (ds : List Char) : Nat :=
  ds.foldl (fun a c => 10 * a + (c.toNat - 48)) 0

/-- `series.str.extract('(\d+)').astype(float)` on one value: the first
integer occurring in the string, `none` (NaN) when the string has no
digit. -/
def strExtractNat (s : String) : Option Nat :=
  (firstDigitRun s.data).map digitsToNat

/-- Python `str.split(sep)` with a one-character separator, on the
character list: `"a,,b" ↦ [[a],[],[b]]`, `"" ↦ [[]]`.  Never returns
`[]`. -/
def splitCharsOn (sep : Char) : List Char → List (List Char)
  | [] => [[]]
  | c :: cs =>
    if c = sep then [] :: splitCharsOn sep cs
    else
      match splitCharsOn sep cs with
      | [] => [[c]]
      | h :: t => (c :: h) :: t

/-- `listed_in.str.split(',').str[0]`: the text before the first comma
(the whole string when it has no comma). -/
def pySplitFirst (s : String) : String :=
  String.mk ((splitCharsOn ',' s.data).headD [])

/-- Model of the external library call
`pd.to_datetime(value, format='mixed').dt.year` on one present value:
the parser accepts ISO dates `YYYY-MM-DD` with numeric fields in range
and returns the calendar year; on any other string it fails (`none`),
which at the series level makes `to_datetime` raise (its default is
`errors='raise'`). -/
def toDatetimeYear (s : String) : Option Nat :=
  match splitCharsOn '-' s.data with
  | [y, m, d] =>
    if y.length = 4 && y.all Char.isDigit &&
       (decide (1 ≤ m.length) && decide (m.length ≤ 2)) && m.all Char.isDigit &&
       (decide (1 ≤ d.length) && decide (d.length ≤ 2)) && d.all Char.isDigit &&
       (decide (1 ≤ digitsToNat m) && decide (digitsToNat m ≤ 12)) &&
       (decide (1 ≤ digitsToNat d) && decide (digitsToNat d ≤ 31)) then
      some (digitsToNat y)
    else none
  | _ => none

/-- A row of the cleaned dataframe returned by `load_and_clean_data`:
the original columns (all present, since incomplete rows were dropped)
plus the three derived columns `duration_min`, `genre`, `year_added`. -/
structure CleanedRow where
  type : String
  duration : String
  listed_in : String
  date_added : String
  country : String
  rating : String
  release_year : String
  duration_min : Option Nat
  genre : String
  year_added : Nat
deriving DecidableEq, Repr

/-- The raw row a cleaned row came from. -/
def origRow (c : CleanedRow) : Row :=
  { type := some c.type, duration := some c.duration,
    listed_in := some c.listed_in, date_added := some c.date_added,
    country := some c.country, rating := some c.rating,
    release_year := some c.release_year }

/-- The derivation step applied to one (complete) row:
`duration_min` from the digit run of `duration` for movie rows only
(index alignment leaves NaN on the others), `genre` from the first
comma token of `listed_in`, `year_added` from parsing `date_added`.
Fails (`none`) exactly when `to_datetime` would raise on this row's
`date_added` (or a column is unexpectedly missing, which the dropna
filter rules out). -/
def deriveRow (r : Row) : Option CleanedRow := do
  let t ← r.type
  let du ← r.duration
  let li ← r.listed_in
  let da ← r.date_added
  let co ← r.country
  let ra ← r.rating
  let ry ← r.release_year
  let y ← toDatetimeYear da
  pure { type := t, duration := du, listed_in := li, date_added := da,
         country := co, rating := ra, release_year := ry,
         duration_min := if t = "Movie" then strExtractNat du else none,
         genre := pySplitFirst li,
         year_added := y }

/-- Outcome of `load_and_clean_data`: `exited c` models
`sys.exit(c)` from the `FileNotFoundError` handler, `raised` an
uncaught exception (the `except` clause catches only
`FileNotFoundError`), `ok df` a normal return. -/
inductive LoadResult where
  | exited (code : Nat) (errorLogged : Bool)
  | raised
  | ok (df : List CleanedRow)
deriving DecidableEq, Repr

/-- Apply a fallible function to every element, failing as soon as one
application fails (the all-or-nothing column assignment: `to_datetime`
raises on the first unparsable value and no dataframe is produced). -/
def mapOption (f : α → Option β) : List α → Option (List β)
  | [] => some []
  | a :: l =>
    match f a, mapOption f l with
    | some b, some bs => some (b :: bs)
    | _, _ => none

/-- `load_and_clean_data(file_path)`.  The filesystem read is modelled
by the argument: `none` when no file exists at the path (so `read_csv`
raises `FileNotFoundError`, caught, logged and turned into
`sys.exit(1)`), `some rows` the parsed CSV otherwise.  Then
`dropna`, the three derived-column assignments, with `to_datetime`
raising on any unparsable `date_added`. -/
def load_and_clean_data (file : Option (List Row)) : LoadResult :=
  match file with
  | none => .exited 1 true
  | some rows =>
    match mapOption deriveRow (rows.filter rowComplete) with
    | none => .raised
    | some df => .ok df

/-! ## Chart renderer (`create_chart`) -/

/-- The seaborn call a `kind` tag dispatches to. -/
inductive PlotAction where
  | barplot | lineplot | histplot | scatterplot | countplot
deriving DecidableEq, Repr

/-- The `if kind == 'bar' ... elif kind == 'count'` chain of
`create_chart`: which plotting branch runs, `none` when no branch
matches (there is no `else`). -/
def chartBranch (kind : String) : Option PlotAction :=
  if kind = "bar" then some .barplot
  else if kind = "line" then some .lineplot
  else if kind = "hist" then some .histplot
  else if kind = "scatter" then some .scatterplot
  else if kind = "count" then some .countplot
  else none

/-- Observable effect of one `create_chart` call: the branch that ran
(if any), the path `plt.savefig` wrote (always written, after
`img/slides` is created idempotently), and whether `plt.close()` ran. -/
structure ChartResult where
  plotted : Option PlotAction
  savedPath : String
  figureClosed : Bool
deriving DecidableEq, Repr

/-- `create_chart(data, title, filename, kind)`.  A total function:
no `kind` value raises; the figure is titled, saved to
`img/slides/<filename>` and closed whatever branch (or none) ran. -/
def create_chart (filename : String) (kind : String := "bar") : ChartResult :=
  { plotted := chartBranch kind,
    savedPath := "img/slides/" ++ filename,
    figureClosed := true }

/-! ## Deck builder (python-pptx model) -/

/-- An RGB color triple (`pptx.dml.color.RGBColor`). -/
structure RGB where
  r : Nat
  g : Nat
  b : Nat
deriving DecidableEq, Repr

def DARK_BLUE : RGB := ⟨0, 32, 96⟩
def LIGHT_BLUE : RGB := ⟨197, 217, 241⟩

/-- Font attributes of a paragraph or placeholder style; `none` means
"inherit" (not set directly). -/
structure Font where
  fname : Option String
  size : Option Nat
  color : Option RGB
deriving DecidableEq, Repr

def inheritFont : Font := ⟨none, none, none⟩

/-- A picture placed on a slide; lengths in EMU (`Inches(x)` =
`914400 * x`). -/
structure Picture where
  path : String
  left : Nat
  top : Nat
  width : Nat
  height : Nat
deriving DecidableEq, Repr

/-- `Inches(n/d)` in EMU. -/
def inchesFrac (n d : Nat) : Nat := 914400 * n / d

/-- A slide instance: the layout it was added from, its title text, the
subtitle placeholder's text when one was filled, the direct font
overrides applied to the title run, and its pictures. -/
structure Slide where
  layout : Nat
  title : String
  subtitle : Option String
  titleFont : Font
  pictures : List Picture
deriving DecidableEq, Repr

/-- Background fill of the slide master. -/
structure Fill where
  solid : Bool
  foreColor : Option RGB
deriving DecidableEq, Repr

/-- The slide master: its background fill and, for each slide layout,
the fonts of its placeholder styles (`layouts[i][j]` = font of
placeholder `j` of layout `i`). -/
structure Master where
  background : Fill
  layouts : List (List Font)
deriving DecidableEq, Repr

/-- A presentation document: the master and the ordered slides. -/
structure Pres where
  master : Master
  slides : List Slide
deriving DecidableEq, Repr

/-- `Presentation()` : the default template, eleven slide layouts, no
slides, placeholder styles inheriting everything. -/
def newPresentation : Pres :=
  { master := { background := ⟨false, none⟩,
                layouts := List.replicate 11 (List.replicate 2 inheritFont) },
    slides := [] }

/-- The slide `add_title_slide` builds: layout 0, title and subtitle
text set, title run directly overridden to dark blue at 44 pt. -/
def titleSlide (title subtitle : String) : Slide :=
  { layout := 0, title := title, subtitle := some subtitle,
    titleFont := ⟨none, some 44, some DARK_BLUE⟩, pictures := [] }

/-- `add_title_slide(prs, title, subtitle)`: appends a slide on layout 0,
sets title and subtitle text, and directly overrides the title run's
color (dark blue) and size (44 pt). -/
def add_title_slide (prs : Pres) (title subtitle : String) : Pres :=
  { prs with slides := prs.slides ++ [titleSlide title subtitle] }

/-- The slide `add_content_slide` builds: layout 5, title text set, the
image placed at the fixed box (1", 1.5", 8" × 5.5"), title run directly
overridden to dark blue at 32 pt. -/
def contentSlide (title image_path : String) : Slide :=
  { layout := 5, title := title, subtitle := none,
    titleFont := ⟨none, some 32, some DARK_BLUE⟩,
    pictures := [{ path := image_path,
                   left := inchesFrac 1 1, top := inchesFrac 3 2,
                   width := inchesFrac 8 1, height := inchesFrac 11 2 }] }

/-- `add_content_slide(prs, title, image_path)`: appends a slide on
layout 5, sets the title text, places the image at the fixed box
(1", 1.5", 8" × 5.5"), and directly overrides the title run's color
(dark blue) and size (32 pt). -/
def add_content_slide (prs : Pres) (title image_path : String) : Pres :=
  { prs with slides := prs.slides ++ [contentSlide title image_path] }

/-- Replace placeholder `j` of layout `i`'s font (no-op out of range,
as `List.set` is). -/
def setLayoutFont (ls : List (List Font)) (i j : Nat) (f : Font) :
    List (List Font) :=
  ls.set i ((ls.getD i []).set j f)

/-- `customize_slide_master(prs)`: sets the master background to a
solid light-blue fill and overwrites the fonts of layout 0 placeholder 0
(Arial 44 pt dark blue) and layout 1 placeholder 1 (Arial 18 pt black).
Nothing else of the document is touched. -/
def customize_slide_master (prs : Pres) : Pres :=
  let m := prs.master
  let m := { m with background := ⟨true, some LIGHT_BLUE⟩ }
  let titleStyle : Font := ⟨some "Arial", some 44, some DARK_BLUE⟩
  let m := { m with layouts := setLayoutFont m.layouts 0 0 titleStyle }
  let bodyStyle : Font := ⟨some "Arial", some 18, some (RGB.mk 0 0 0)⟩
  let m := { m with layouts := setLayoutFont m.layouts 1 1 bodyStyle }
  { prs with master := m }

/-! ## `main` -/

/-- Python `str.title()` over a character list: the first letter of each
run of alphabetic characters is uppercased, the rest lowercased. -/
def pyTitleAux : Bool → List Char → List Char
  | _, [] => []
  | prevAlpha, c :: cs =>
    (if c.isAlpha then (if prevAlpha then c.toLower else c.toUpper) else c)
      :: pyTitleAux c.isAlpha cs

/-- `img_path.stem`: the file name with its last extension removed. -/
def stemOf (name : String) : String :=
  if '.' ∈ name.data then
    String.mk (name.data.reverse.dropWhile (· ≠ '.') |>.drop 1 |>.reverse)
  else name

/-- `img_path.stem.replace('_', ' ').title()`: the content-slide title
derived from a file name. -/
def slideTitleOf (name : String) : String :=
  String.mk (pyTitleAux false
    ((stemOf name).data.map (fun c => if c = '_' then ' ' else c)))

/-- The deck `main` builds and saves as
`Netflix_Content_Analysis.pptx`: a title slide, then one content slide
per entry of `img/slides` in the order `iterdir()` enumerates them
(given here as `listing`, the file names found at build time). -/
def buildDeck (listing : List String) : Pres :=
  listing.foldl
    (fun p n => add_content_slide p (slideTitleOf n) ("img/slides/" ++ n))
    (add_title_slide newPresentation "Netflix Content Analysis"
      "Insights from the Netflix Movies and TV Shows Dataset")

/-- The fixed chart files `main` renders, in call order. -/
def chartCalls : List (String × String) :=
  [("content_types.png", "bar"), ("top_countries.png", "bar"),
   ("content_by_year.png", "line"), ("top_genres.png", "bar"),
   ("movie_duration_dist.png", "hist"), ("duration_vs_year.png", "scatter"),
   ("rating_distribution.png", "count")]

/-- Outcome of a `main` run: `exited` via `sys.exit` inside
`load_and_clean_data` (before any chart or deck output exists),
`crashed` on an uncaught exception there, or `completed` with the
charts written, the plain deck, the themed deck, and the two saved
document names. -/
inductive MainResult where
  | exited (code : Nat) (errorLogged : Bool)
  | crashed
  | completed (images : List String) (plainDeck themedDeck : Pres)
      (decksSaved : List String)
deriving DecidableEq, Repr

/-- Image files a run wrote. -/
def MainResult.imagesWritten : MainResult → List String
  | .completed images _ _ _ => images
  | _ => []

/-- Document files a run wrote. -/
def MainResult.docsWritten : MainResult → List String
  | .completed _ _ _ decks => decks
  | _ => []

/-- `main()`.  `file` models the filesystem at `./data/netflix_titles.csv`
(`none` = absent), `listing` the enumeration of `img/slides` at deck
build time.  Load first (its `sys.exit(1)` aborts everything after),
then the seven charts, then the plain deck, then the themed copy. -/
def main (file : Option (List Row)) (listing : List String) : MainResult :=
  match load_and_clean_data file with
  | .exited c logged => .exited c logged
  | .raised => .crashed
  | .ok _ =>
    let images := chartCalls.map (fun c => (create_chart c.1 c.2).savedPath)
    let plain := buildDeck listing
    let themed := customize_slide_master plain
    .completed images plain themed
      ["Netflix_Content_Analysis.pptx", "Netflix_Content_Analysis_Themed.pptx"]

/-! ## Concrete sample inputs (for witnesses and counterexamples) -/

/-- A complete movie row of a sample CSV. -/
def demoMovieRow : Row :=
  { type := some "Movie", duration := some "90 min",
    listed_in := some "Dramas, International Movies",
    date_added := some "2019-01-01", country := some "US",
    rating := some "PG", release_year := some "2019" }

/-- A row with a missing `country` value: dropped by `dropna`. -/
def demoIncompleteRow : Row :=
  { type := some "TV Show", duration := some "2 Seasons",
    listed_in := some "Kids", date_added := some "2020-05-10",
    country := none, rating := some "TV-Y", release_year := some "2020" }

/-- A complete TV-show row. -/
def demoShowRow : Row :=
  { type := some "TV Show", duration := some "2 Seasons",
    listed_in := some "Kids", date_added := some "2020-05-10",
    country := some "FR", rating := some "TV-Y", release_year := some "2020" }

/-- A complete row whose `date_added` is present but no date at all. -/
def demoBadDateRow : Row :=
  { type := some "Movie", duration := some "90 min",
    listed_in := some "Dramas", date_added := some "garbage",
    country := some "US", rating := some "PG", release_year := some "2019" }

/-- A 3-row sample CSV with exactly one incomplete row. -/
def demoRows : List Row := [demoMovieRow, demoIncompleteRow, demoShowRow]

/-- The cleaned row `demoMovieRow` becomes. -/
def demoMovieClean : CleanedRow :=
  { type := "Movie", duration := "90 min",
    listed_in := "Dramas, International Movies",
    date_added := "2019-01-01", country := "US", rating := "PG",
    release_year := "2019", duration_min := some 90, genre := "Dramas",
    year_added := 2019 }

/-- The cleaned row `demoShowRow` becomes. -/
def demoShowClean : CleanedRow :=
  { type := "TV Show", duration := "2 Seasons", listed_in := "Kids",
    date_added := "2020-05-10", country := "FR", rating := "TV-Y",
    release_year := "2020", duration_min := none, genre := "Kids",
    year_added := 2020 }

/-- The cleaned dataframe for `demoRows`. -/
def demoDF : List CleanedRow := [demoMovieClean, demoShowClean]

/-- A sample enumeration of the `img/slides` directory. -/
def demoListing : List String := ["content_types.png"]

/-! ## Helper lemmas -/

theorem mapOption_length (f : α → Option β) :
    ∀ (l : List α) (res : List β), mapOption f l = some res →
      res.length = l.length := by
  intro l
  induction l with
  | nil =>
    intro res h
    simp [mapOption] at h
    simp [← h]
  | cons a l ih =>
    intro res h
    cases hfa : f a with
    | none => simp [mapOption, hfa] at h
    | some b =>
      cases hml : mapOption f l with
      | none => simp [mapOption, hfa, hml] at h
      | some bs =>
        simp [mapOption, hfa, hml] at h
        simp [← h, ih bs hml]

theorem mapOption_map (f : α → Option β) (g : β → α)
    (hg : ∀ a b, f a = some b → g b = a) :
    ∀ (l : List α) (res : List β), mapOption f l = some res →
      res.map g = l := by
  intro l
  induction l with
  | nil =>
    intro res h
    simp [mapOption] at h
    simp [← h]
  | cons a l ih =>
    intro res h
    cases hfa : f a with
    | none => simp [mapOption, hfa] at h
    | some b =>
      cases hml : mapOption f l with
      | none => simp [mapOption, hfa, hml] at h
      | some bs =>
        simp [mapOption, hfa, hml] at h
        simp [← h, ih bs hml, hg a b hfa]

theorem mapOption_mem (f : α → Option β) :
    ∀ (l : List α) (res : List β), mapOption f l = some res →
      ∀ b ∈ res, ∃ a ∈ l, f a = some b := by
  intro l
  induction l with
  | nil =>
    intro res h
    simp [mapOption] at h
    simp [h]
  | cons a l ih =>
    intro res h
    cases hfa : f a with
    | none => simp [mapOption, hfa] at h
    | some b =>
      cases hml : mapOption f l with
      | none => simp [mapOption, hfa, hml] at h
      | some bs =>
        simp [mapOption, hfa, hml] at h
        intro x hx
        rw [← h] at hx
        rcases List.mem_cons.mp hx with hxb | hxbs
        · exact ⟨a, List.mem_cons_self a l, hxb ▸ hfa⟩
        · obtain ⟨a', ha', hfa'⟩ := ih bs hml x hxbs
          exact ⟨a', List.mem_cons_of_mem a ha', hfa'⟩

theorem mapOption_none_of_mem (f : α → Option β) :
    ∀ (l : List α) (a : α), a ∈ l → f a = none → mapOption f l = none := by
  intro l
  induction l with
  | nil => intro a ha; simp at ha
  | cons x l ih =>
    intro a ha hfa
    rcases List.mem_cons.mp ha with hax | hal
    · simp [mapOption, hax ▸ hfa]
    · cases hfx : f x <;> simp [mapOption, hfx, ih a hal hfa]

theorem length_filter_eq_sub (p : α → Bool) :
    ∀ l : List α,
      (l.filter p).length = l.length - l.countP (fun a => !p a) := by
  intro l
  induction l with
  | nil => simp
  | cons a l ih =>
    have hle := List.countP_le_length (p := fun a => !p a) (l := l)
    cases hpa : p a
    · simp [List.filter_cons, List.countP_cons, hpa, ih]
    · simp [List.filter_cons, List.countP_cons, hpa, ih]
      omega

theorem deriveRow_origRow {r : Row} {c : CleanedRow}
    (h : deriveRow r = some c) : origRow c = r := by
  obtain ⟨ot, odu, oli, oda, oco, ora, ory⟩ := r
  rcases ot with _ | t; · simp [deriveRow] at h
  rcases odu with _ | du; · simp [deriveRow] at h
  rcases oli with _ | li; · simp [deriveRow] at h
  rcases oda with _ | da; · simp [deriveRow] at h
  rcases oco with _ | co; · simp [deriveRow] at h
  rcases ora with _ | ra; · simp [deriveRow] at h
  rcases ory with _ | ry; · simp [deriveRow] at h
  rcases hy : toDatetimeYear da with _ | y
  · simp [deriveRow, hy] at h
  · simp [deriveRow, hy] at h
    simp [← h, origRow]

theorem deriveRow_derived {r : Row} {c : CleanedRow}
    (h : deriveRow r = some c) :
    c.duration_min =
      (if c.type = "Movie" then strExtractNat c.duration else none) ∧
    c.genre = pySplitFirst c.listed_in := by
  obtain ⟨ot, odu, oli, oda, oco, ora, ory⟩ := r
  rcases ot with _ | t; · simp [deriveRow] at h
  rcases odu with _ | du; · simp [deriveRow] at h
  rcases oli with _ | li; · simp [deriveRow] at h
  rcases oda with _ | da; · simp [deriveRow] at h
  rcases oco with _ | co; · simp [deriveRow] at h
  rcases ora with _ | ra; · simp [deriveRow] at h
  rcases ory with _ | ry; · simp [deriveRow] at h
  rcases hy : toDatetimeYear da with _ | y
  · simp [deriveRow, hy] at h
  · simp [deriveRow, hy] at h
    simp [← h]

theorem splitCharsOn_ne_nil (sep : Char) :
    ∀ l : List Char, splitCharsOn sep l ≠ [] := by
  intro l
  induction l with
  | nil => simp [splitCharsOn]
  | cons c cs ih =>
    by_cases hc : c = sep
    · simp [splitCharsOn, hc]
    · cases hs : splitCharsOn sep cs with
      | nil => exact absurd hs ih
      | cons h t => simp [splitCharsOn, hc, hs]

theorem headD_splitCharsOn (sep : Char) :
    ∀ l : List Char,
      (splitCharsOn sep l).headD [] = l.takeWhile (fun c => c != sep) := by
  intro l
  induction l with
  | nil => simp [splitCharsOn]
  | cons c cs ih =>
    by_cases hc : c = sep
    · simp [splitCharsOn, hc, List.takeWhile_cons]
    · cases hs : splitCharsOn sep cs with
      | nil => exact absurd hs (splitCharsOn_ne_nil sep cs)
      | cons h t =>
        rw [hs] at ih
        simp only [List.headD_cons] at ih
        simp [splitCharsOn, hc, hs, List.takeWhile_cons, ih]

theorem pySplitFirst_takeWhile (s : String) :
    pySplitFirst s = String.mk (s.data.takeWhile (fun c => c != ',')) := by
  rw [pySplitFirst, headD_splitCharsOn]

theorem pySplitFirst_no_comma (s : String) (h : ',' ∉ s.data) :
    pySplitFirst s = s := by
  rw [pySplitFirst_takeWhile]
  have hall : ∀ c ∈ s.data, (c != ',') = true := by
    intro c hcs
    simp only [bne_iff_ne, ne_eq]
    intro hceq
    exact h (hceq ▸ hcs)
  rw [List.takeWhile_eq_self_iff.mpr hall]

theorem getD_set_ne (l : List α) {i j : Nat} (h : i ≠ j) (a : α) (d : α) :
    (l.set i a).getD j d = l.getD j d := by
  simp [List.getD_eq_getElem?_getD, List.getElem?_set_ne h]

theorem getD_set_self (l : List α) (i : Nat) (a d : α) (h : i < l.length) :
    (l.set i a).getD i d = a := by
  rw [List.getD_eq_getElem?_getD, List.getElem?_set_self h]
  rfl

theorem setLayoutFont_getD_other (l : List (List Font)) (i' j' : Nat)
    (f : Font) (i j : Nat) (h : ¬(i = i' ∧ j = j')) :
    ((setLayoutFont l i' j' f).getD i []).getD j inheritFont
      = ((l.getD i []).getD j inheritFont) := by
  rw [setLayoutFont]
  by_cases hi : i = i'
  · subst hi
    have hj : j' ≠ j := fun hj => h ⟨rfl, hj.symm⟩
    by_cases hlen : i < l.length
    · rw [getD_set_self l i _ [] hlen, getD_set_ne _ hj]
    · rw [List.set_eq_of_length_le (le_of_not_lt hlen)]
  · rw [getD_set_ne l (fun he => hi he.symm)]

theorem buildDeck_slides_aux (listing : List String) :
    ∀ p : Pres,
      (listing.foldl
        (fun q n => add_content_slide q (slideTitleOf n) ("img/slides/" ++ n))
        p).slides
      = p.slides ++
        listing.map (fun n => contentSlide (slideTitleOf n) ("img/slides/" ++ n)) := by
  induction listing with
  | nil => intro p; simp
  | cons n ns ih =>
    intro p
    rw [List.foldl_cons, ih, List.map_cons]
    simp [add_content_slide]

theorem deriveRow_badDate {r : Row} {s : String}
    (hda : r.date_added = some s) (hp : toDatetimeYear s = none) :
    deriveRow r = none := by
  obtain ⟨ot, odu, oli, oda, oco, ora, ory⟩ := r
  simp only at hda
  subst hda
  rcases ot with _ | t; · simp [deriveRow]
  rcases odu with _ | du; · simp [deriveRow]
  rcases oli with _ | li; · simp [deriveRow]
  rcases oco with _ | co; · simp [deriveRow]
  rcases ora with _ | ra; · simp [deriveRow]
  rcases ory with _ | ry; · simp [deriveRow]
  simp [deriveRow, hp]

theorem load_ok_mapOption {rows : List Row} {df : List CleanedRow}
    (h : load_and_clean_data (some rows) = .ok df) :
    mapOption deriveRow (rows.filter rowComplete) = some df := by
  simp only [load_and_clean_data] at h
  cases hm : mapOption deriveRow (rows.filter rowComplete) with
  | none => rw [hm] at h; simp at h
  | some res =>
    rw [hm] at h
    injection h with h
    rw [h]

/-! ## Claim theorems -/

/-- C1: for a CSV of `N` rows of which `K` have at least one missing
value in any column, the dataframe returned by `load_and_clean_data`
has exactly `N − K` rows: exactly the complete rows survive (each
mapped to its derived extension, in order), so every incomplete row is
dropped and no complete row is. -/
theorem c1_clean_row_count (rows : List Row) (df : List CleanedRow)
    (h : load_and_clean_data (some rows) = .ok df) :
    df.length = rows.length - rows.countP (fun r => !rowComplete r) ∧
    df.map origRow = rows.filter rowComplete := by
  have hm := load_ok_mapOption h
  constructor
  · rw [mapOption_length deriveRow _ _ hm]
    exact length_filter_eq_sub rowComplete rows
  · exact mapOption_map deriveRow origRow (fun a b hb => deriveRow_origRow hb)
      _ _ hm

/-- Witness for C1 on a concrete 3-row CSV with one incomplete row:
the cleaned dataframe has 3 − 1 = 2 rows. -/
theorem c1_clean_row_count_witness :
    demoDF.length = demoRows.length -
      demoRows.countP (fun r => !rowComplete r) :=
  (c1_clean_row_count demoRows demoDF (by decide)).1

/-- C2: in the cleaned dataframe, a row of type `"Movie"` has
`duration_min` equal to the first integer occurring in its `duration`
text (the regex extraction), and a row of any other type has
`duration_min` missing. -/
theorem c2_duration_min (rows : List Row) (df : List CleanedRow)
    (h : load_and_clean_data (some rows) = .ok df) (r : CleanedRow)
    (hr : r ∈ df) :
    (r.type = "Movie" → r.duration_min = strExtractNat r.duration) ∧
    (r.type ≠ "Movie" → r.duration_min = none) := by
  have hm := load_ok_mapOption h
  obtain ⟨a, _, hda⟩ := mapOption_mem deriveRow _ _ hm r hr
  have hd := (deriveRow_derived hda).1
  constructor
  · intro ht
    rw [hd, if_pos ht]
  · intro ht
    rw [hd, if_neg ht]

/-- Witness for C2: the movie row with duration text `"90 min"` gets
`duration_min = 90`. -/
theorem c2_duration_min_witness : demoMovieClean.duration_min = some 90 :=
  ((c2_duration_min demoRows demoDF (by decide) demoMovieClean
      (by decide)).1 (by decide)).trans (by decide)

/-- C8: in the cleaned dataframe, the derived `genre` equals the text
of `listed_in` before its first comma, and the whole of `listed_in`
when it contains no comma. -/
theorem c8_genre (rows : List Row) (df : List CleanedRow)
    (h : load_and_clean_data (some rows) = .ok df) (r : CleanedRow)
    (hr : r ∈ df) :
    r.genre = String.mk (r.listed_in.data.takeWhile (fun c => c != ',')) ∧
    (',' ∉ r.listed_in.data → r.genre = r.listed_in) := by
  have hm := load_ok_mapOption h
  obtain ⟨a, _, hda⟩ := mapOption_mem deriveRow _ _ hm r hr
  have hg := (deriveRow_derived hda).2
  exact ⟨hg.trans (pySplitFirst_takeWhile _),
    fun hnc => hg.trans (pySplitFirst_no_comma _ hnc)⟩

/-- Witness for C8: the comma-free `listed_in` value `"Kids"` is kept
whole as the genre. -/
theorem c8_genre_witness : demoShowClean.genre = demoShowClean.listed_in :=
  (c8_genre demoRows demoDF (by decide) demoShowClean (by decide)).2
    (by decide)

/-- C3 counterexample: on a complete row whose `date_added` is present
but not a date, `load_and_clean_data` does not return normally — the
`to_datetime` call raises and the exception escapes (the handler
catches only `FileNotFoundError`). -/
theorem c3_counterexample :
    load_and_clean_data (some [demoBadDateRow]) = .raised := by decide

/-- C3 amended: a present but unparsable `date_added` on a complete
(kept) row makes `load_and_clean_data` raise an uncaught error; no
dataframe with a missing year is returned. -/
theorem c3_unparsable_date_raises (rows : List Row) (r : Row) (s : String)
    (hmem : r ∈ rows) (hc : rowComplete r = true)
    (hda : r.date_added = some s) (hp : toDatetimeYear s = none) :
    load_and_clean_data (some rows) = .raised := by
  have hr : r ∈ rows.filter rowComplete := List.mem_filter.mpr ⟨hmem, hc⟩
  have hd : deriveRow r = none := deriveRow_badDate hda hp
  simp only [load_and_clean_data]
  rw [mapOption_none_of_mem deriveRow _ r hr hd]

/-- Witness for the amended C3: a 2-row CSV whose second row has
`date_added = "garbage"` makes the load raise. -/
theorem c3_unparsable_date_raises_witness :
    load_and_clean_data (some [demoMovieRow, demoBadDateRow]) = .raised :=
  c3_unparsable_date_raises _ demoBadDateRow "garbage" (by decide)
    (by decide) (by decide) (by decide)

/-- C4: with no file at the input path, the run logs an error, exits
with status 1, and writes no image and no document. -/
theorem c4_missing_file (listing : List String) :
    main none listing = .exited 1 true ∧
    (main none listing).imagesWritten = [] ∧
    (main none listing).docsWritten = [] :=
  ⟨rfl, rfl, rfl⟩

/-- C5: whenever `main` completes, the plain deck it saved holds one
title slide followed by exactly one content slide per file enumerated
from `img/slides` at build time, in enumeration order (slide `i + 1`
shows file `i`), so its slide count is `1 +` the number of files. -/
theorem c5_deck_slides (file : Option (List Row)) (listing : List String)
    (imgs : List String) (plain themed : Pres) (decks : List String)
    (h : main file listing = .completed imgs plain themed decks) :
    plain.slides.length = 1 + listing.length ∧
    plain.slides.map (fun s => s.pictures.map Picture.path)
      = [[]] ++ listing.map (fun n => ["img/slides/" ++ n]) := by
  have hplain : plain = buildDeck listing := by
    rcases file with _ | rows
    · simp [main, load_and_clean_data] at h
    · simp only [main] at h
      cases hl : load_and_clean_data (some rows) with
      | exited c lg => rw [hl] at h; simp at h
      | raised => rw [hl] at h; simp at h
      | ok df =>
        rw [hl] at h
        injection h with h1 h2 h3 h4
        exact h2.symm
  subst hplain
  have hb := buildDeck_slides_aux listing
    (add_title_slide newPresentation "Netflix Content Analysis"
      "Insights from the Netflix Movies and TV Shows Dataset")
  rw [buildDeck] at *
  constructor
  · rw [hb]
    simp [add_title_slide, newPresentation]
    omega
  · rw [hb]
    simp [add_title_slide, newPresentation, titleSlide, contentSlide]

/-- Witness for C5: with one file in the directory, the plain deck has
two slides. -/
theorem c5_deck_slides_witness :
    (buildDeck demoListing).slides.length = 1 + demoListing.length :=
  (c5_deck_slides (some demoRows) demoListing
      (chartCalls.map (fun c => (create_chart c.1 c.2).savedPath))
      (buildDeck demoListing)
      (customize_slide_master (buildDeck demoListing))
      ["Netflix_Content_Analysis.pptx", "Netflix_Content_Analysis_Themed.pptx"]
      (by decide)).1

/-- C6 counterexample: the code's recognized kind tags are
`bar, line, hist, scatter, count`, not the spec's `histogram`: the tag
`"histogram"` runs no plotting branch while `"hist"` does. -/
theorem c6_counterexample :
    chartBranch "histogram" = none ∧
    chartBranch "hist" = some .histplot := by decide

/-- C6 amended: for every kind tag outside the recognized set
`{bar, line, hist, scatter, count}`, `create_chart` raises no error:
it still saves the figure at `img/slides/<filename>` and closes it,
with no plotting branch run (an empty chart). -/
theorem c6_unrecognized_kind (filename kind : String)
    (h : kind ∉ ["bar", "line", "hist", "scatter", "count"]) :
    (create_chart filename kind).plotted = none ∧
    (create_chart filename kind).savedPath = "img/slides/" ++ filename ∧
    (create_chart filename kind).figureClosed = true := by
  simp only [List.mem_cons, List.not_mem_nil, or_false, not_or] at h
  obtain ⟨h1, h2, h3, h4, h5⟩ := h
  exact ⟨by simp [create_chart, chartBranch, h1, h2, h3, h4, h5], rfl, rfl⟩

/-- Witness for the amended C6: the spec's own tag `"histogram"` is
unrecognized, yet the file is written and the figure closed. -/
theorem c6_unrecognized_kind_witness :
    (create_chart "f.png" "histogram").plotted = none ∧
    (create_chart "f.png" "histogram").savedPath = "img/slides/" ++ "f.png" ∧
    (create_chart "f.png" "histogram").figureClosed = true :=
  c6_unrecognized_kind "f.png" "histogram" (by decide)

/-- C7: `customize_slide_master` changes only the master background
fill and the placeholder fonts at layout 0 placeholder 0 and layout 1
placeholder 1: the slide list (count, direct title formatting,
pictures) is untouched, and every other layout placeholder font is
unchanged. -/
theorem c7_customize_master (prs : Pres) :
    (customize_slide_master prs).slides = prs.slides ∧
    (customize_slide_master prs).master.background = ⟨true, some LIGHT_BLUE⟩ ∧
    (customize_slide_master prs).master.layouts.length
      = prs.master.layouts.length ∧
    ∀ i j : Nat, ¬(i = 0 ∧ j = 0) → ¬(i = 1 ∧ j = 1) →
      (((customize_slide_master prs).master.layouts.getD i []).getD j
          inheritFont)
        = ((prs.master.layouts.getD i []).getD j inheritFont) := by
  refine ⟨rfl, rfl, ?_, ?_⟩
  · simp [customize_slide_master, setLayoutFont, List.length_set]
  · intro i j h00 h11
    simp only [customize_slide_master]
    rw [setLayoutFont_getD_other _ 1 1 _ i j h11]
    rw [setLayoutFont_getD_other _ 0 0 _ i j h00]

/-- Witness for C7 at layout 2, placeholder 0 of the default template:
its font is unchanged by `customize_slide_master`. -/
theorem c7_customize_master_witness :
    (((customize_slide_master newPresentation).master.layouts.getD 2 []).getD 0
        inheritFont)
      = ((newPresentation.master.layouts.getD 2 []).getD 0 inheritFont) :=
  (c7_customize_master newPresentation).2.2.2 2 0 (by decide) (by decide)

/-- C9: `add_title_slide` appends exactly one slide, whose title text
is the given title and whose subtitle placeholder text is the given
subtitle. -/
theorem c9_add_title_slide (prs : Pres) (title subtitle : String) :
    (add_title_slide prs title subtitle).slides.length
      = prs.slides.length + 1 ∧
    ((add_title_slide prs title subtitle).slides.getLast?.map Slide.title)
      = some title ∧
    ((add_title_slide prs title subtitle).slides.getLast?.bind Slide.subtitle)
      = some subtitle := by
  refine ⟨by simp [add_title_slide], ?_, ?_⟩
  · simp [add_title_slide, List.getLast?_concat, titleSlide]
  · simp [add_title_slide, List.getLast?_concat, titleSlide]

/-- C10: `add_content_slide` appends exactly one slide, last in the
deck, with the given title text, and leaves every previously added
slide (and the master) unchanged. -/
theorem c10_add_content_slide (prs : Pres) (title image_path : String) :
    (add_content_slide prs title image_path).slides.length
      = prs.slides.length + 1 ∧
    ((add_content_slide prs title image_path).slides.getLast?.map Slide.title)
      = some title ∧
    (add_content_slide prs title image_path).slides.dropLast = prs.slides ∧
    (add_content_slide prs title image_path).master = prs.master := by
  refine ⟨by simp [add_content_slide], ?_, ?_, rfl⟩
  · simp [add_content_slide, List.getLast?_concat, contentSlide]
  · simp [add_content_slide, List.dropLast_concat]

end AutoPres
